import Mathlib

/-!
Verification development for the ak-signing-examples repository.

The repository shows a recurring pattern for Ed25519 transaction signing:
on each signing request, fetch a wrapped mnemonic from an external secret
store (OS keychain or remote KMS), derive the seed and keypair, sign, and
zero the seed buffer.  We embed the control flow of the TypeScript sources
shallowly: stores are explicit association lists, subprocess and network
effects are parameters, fallible steps return values of the Except type,
and the mutable seed buffer is returned explicitly so its final contents
can be inspected.

External collaborators (the algo25 mnemonic codec, the noble Ed25519
primitive, the algokit-utils address and multisig helpers) are not part of
the repository; they are modelled from the specification, each such
definition carries a doc comment saying so.
-/

set_option autoImplicit false

namespace AkSigning

/-! ## Generic secret store model -/

/-- Association-list lookup keyed by an arbitrary decidable key type.
Models a read from the external secret store (OS keychain entry, CLI
keychain database, Windows credential vault). -/
def storeGet {κ α : Type} [DecidableEq κ] (key : κ) : List (κ × α) → Option α
  | [] => none
  | e :: rest => if e.1 = key then some e.2 else storeGet key rest

/-- Association-list update: the new entry shadows any previous entry for
the same key.  Models an overwriting write to the external secret store
(the macOS CLI passes -U, the Windows and keyring writes replace). -/
def storeSet {κ α : Type} [DecidableEq κ] (key : κ) (v : α) (store : List (κ × α)) : List (κ × α) :=
  (key, v) :: store

/-! ## Mnemonic codec and Ed25519 primitive (spec-modelled) -/

/-- Modelled from the spec: the checksum that the external algo25 codec
appends to the seed when rendering a mnemonic ("a human-readable recovery
phrase encoding a seed plus checksum").  Bytes are naturals below 256. -/
def mnemonicChecksum (s : List Nat) : Nat := s.sum % 256

/-- Modelled from the spec: mnemonicFromSeed of the external algo25 codec.
A mnemonic is modelled by its content, the seed bytes followed by the
checksum ("pure function converting a raw seed back to a mnemonic"). -/
def mnemonicFromSeed (s : List Nat) : List Nat := s ++ [mnemonicChecksum s]

/-- Modelled from the spec: seedFromMnemonic of the external algo25 codec,
the pure function converting a recovery phrase back to the raw seed, which
is every byte of the mnemonic except the trailing checksum. -/
def seedFromMnemonic (m : List Nat) : List Nat := m.dropLast

/-- Modelled from the spec: the ed25519Pubkey field produced by the external
nobleEd25519Generator, a keypair representation derived deterministically
from the seed.  The derivation itself is delegated to the external crypto
library, modelled as determined byte-for-byte by the seed. -/
def nobleEd25519Pubkey (seed : List Nat) : List Nat := seed

/-- Modelled from the spec: the rawEd25519Signer field produced by the
external nobleEd25519Generator.  Signing is modelled as an idealized
deterministic scheme: the signature commits to the public key and to the
whole message, so that verification can recompute it exactly. -/
def nobleSign (seed data : List Nat) : List Nat := nobleEd25519Pubkey seed ++ data

/-- Modelled from the spec: nobleEd25519Verifier of the external crypto
library.  Verification recomputes the committed value and compares; it
returns a boolean and never raises.  Argument order follows the source
call sites: signature, message, public key. -/
def nobleEd25519Verifier (sig data pubkey : List Nat) : Bool :=
  sig == pubkey ++ data

/-- The inner signing step used by the ephemeral signers when the external
noble signer succeeds: it wraps nobleSign in the fallible step type. -/
def nobleSignStep (seed data : List Nat) : Except String (List Nat) :=
  .ok (nobleSign seed data)

/-- A sign step that raises, modelling a failure of the awaited inner
noble signer after seed derivation. -/
def failingSignStep : List Nat → List Nat → Except String (List Nat) :=
  fun _ _ => .error "sign step failed"

/-! ## Keyring backend and ephemeral signer (src/index.ts) -/

/-- The constant secret handle used across the sources. -/
def mnemonicName : String := "algorand-mainnet-mnemonic"

/-- Embedding of getMnemonic (src/index.ts lines 11-20): read the keyring
entry for the given name; the TypeScript guard  if (!mn) throw  rejects
both a missing entry and an empty string, since the empty string is falsy. -/
def getMnemonic (store : List (String × String)) (name : String) : Except String String :=
  match storeGet name store with
  | none => .error ("No mnemonic found in keyring for " ++ name)
  | some mn =>
    if mn = "" then .error ("No mnemonic found in keyring for " ++ name)
    else .ok mn

/-- Embedding of setMnemonic (src/index.ts lines 22-25): write the keyring
entry for the given name. -/
def setMnemonic (store : List (String × String)) (name mnemonic : String) : List (String × String) :=
  storeSet name mnemonic store

/-- Keyring read for the signing pipeline, with the mnemonic modelled by
its byte content (same control flow as getMnemonic in src/index.ts lines
11-20; the falsy guard rejects a missing entry and empty content). -/
def getMnemonicMn (store : List (String × List Nat)) (name : String) : Except String (List Nat) :=
  match storeGet name store with
  | none => .error ("No mnemonic found in keyring for " ++ name)
  | some mn =>
    if mn = [] then .error ("No mnemonic found in keyring for " ++ name)
    else .ok mn

/-- Keyring write for the signing pipeline (setMnemonic of src/index.ts
over byte-content mnemonics). -/
def setMnemonicMn (store : List (String × List Nat)) (name : String) (mnemonic : List Nat) : List (String × List Nat) :=
  storeSet name mnemonic store

/-- Embedding of rawEd25519Signer (src/index.ts lines 30-39).  The result
pairs the returned or propagated value with the final contents of the seed
buffer: none when no seed was ever derived, some buf when a seed buffer
exists at exit.  The source runs  seed.fill(0)  only after the awaited
inner sign step succeeds; an error thrown by the sign step propagates
before any zeroization, so on that path the buffer still holds the seed. -/
def rawEd25519Signer (store : List (String × List Nat))
    (signStep : List Nat → List Nat → Except String (List Nat))
    (data : List Nat) : Except String (List Nat) × Option (List Nat) :=
  match getMnemonicMn store mnemonicName with
  | .error e => (.error e, none)
  | .ok mnemonic =>
    let seed := seedFromMnemonic mnemonic
    match signStep seed data with
    | .error e => (.error e, some seed)
    | .ok sig => (.ok sig, some (List.replicate seed.length 0))

/-- Embedding of macSigner (src/mac.ts lines 7-16): identical control flow
to rawEd25519Signer, with the mnemonic acquired from the macOS security
CLI; the acquisition outcome is passed in as a parameter. -/
def macSigner (acquire : Except String (List Nat))
    (signStep : List Nat → List Nat → Except String (List Nat))
    (data : List Nat) : Except String (List Nat) × Option (List Nat) :=
  match acquire with
  | .error e => (.error e, none)
  | .ok mn =>
    let seed := seedFromMnemonic mn
    match signStep seed data with
    | .error e => (.error e, some seed)
    | .ok sig => (.ok sig, some (List.replicate seed.length 0))

/-- Embedding of macWinSigner (src/win.ts lines 77-87 and
src/unnamed/part_001 lines 83-93).  This variant additionally executes
console.debug with the retrieved mnemonic; the middle component records
the logged secret payloads in order.  Result components: outcome, log,
final seed buffer contents. -/
def macWinSigner (acquire : Except String (List Nat))
    (signStep : List Nat → List Nat → Except String (List Nat))
    (data : List Nat) :
    Except String (List Nat) × List (List Nat) × Option (List Nat) :=
  match acquire with
  | .error e => (.error e, [], none)
  | .ok mnemonic =>
    let log := [mnemonic]
    let seed := seedFromMnemonic mnemonic
    match signStep seed data with
    | .error e => (.error e, log, some seed)
    | .ok sig => (.ok sig, log, some (List.replicate seed.length 0))

/-! ## KMS backend (src/aws.ts) -/

/-- The request shape of the AWS KMS SignCommand as built in
src/aws.ts lines 14-21. -/
structure SignRequest where
  keyId : String
  message : List Nat
  messageType : String
  signingAlgorithm : String
  deriving DecidableEq

/-- The response shape of the AWS KMS sign call: the signature payload may
be absent even when the call itself succeeded. -/
structure SignResponse where
  signature : Option (List Nat)
  deriving DecidableEq

/-- The SignCommand request constructed by originalSigner in
src/aws.ts lines 15-20. -/
def mkSignRequest (keyId : String) (data : List Nat) : SignRequest :=
  { keyId := keyId, message := data, messageType := "RAW", signingAlgorithm := "ED25519_SHA_512" }

/-- Embedding of originalSigner (src/aws.ts lines 13-28): send the sign
request to the KMS (the network call is the kmsSend parameter; a thrown
transport error is its error case), fail when the acknowledged response
carries no signature payload, otherwise return the payload unchanged. -/
def originalSigner (kmsSend : SignRequest → Except String SignResponse)
    (keyId : String) (data : List Nat) : Except String (List Nat) :=
  match kmsSend (mkSignRequest keyId data) with
  | .error e => .error e
  | .ok resp =>
    match resp.signature with
    | none => .error "No signature returned from KMS"
    | some sig => .ok sig

/-- Embedding of ed25519SpkiPrefix (src/aws.ts lines 41-43): the fixed
12-byte SPKI header for the Ed25519 OID. -/
def ed25519SpkiPrefix : List Nat :=
  [0x30, 0x2a, 0x30, 0x05, 0x06, 0x03, 0x2b, 0x65, 0x70, 0x03, 0x21, 0x00]

/-- Embedding of the public-key fetch validation (src/aws.ts lines 34-49):
a missing payload is rejected, an envelope whose first 12 bytes differ
from the fixed header is rejected, and otherwise the bytes after the
header are returned as the raw public key. -/
def fetchPublicKey (resp : Option (List Nat)) : Except String (List Nat) :=
  match resp with
  | none => .error "No public key returned from KMS"
  | some spki =>
    if spki.take 12 = ed25519SpkiPrefix then .ok (spki.drop 12)
    else .error "Unexpected public key format"

/-! ## Platform keychain backends (src/mac.ts, src/win.ts, src/unnamed/part_000, part_001) -/

/-- Whitespace recognizer matching the characters stripped by the
JavaScript String.prototype.trim applied by the subprocess wrappers:
the ECMA-262 WhiteSpace set (tab, vertical tab, form feed, space,
no-break space, zero width no-break space, and the Space_Separator
category) together with the LineTerminator set (line feed, carriage
return, line separator, paragraph separator). -/
def isWhitespaceChar (c : Char) : Bool :=
  c.toNat = 0x09 || c.toNat = 0x0a || c.toNat = 0x0b || c.toNat = 0x0c
    || c.toNat = 0x0d || c.toNat = 0x20 || c.toNat = 0xa0 || c.toNat = 0x1680
    || (0x2000 ≤ c.toNat && c.toNat ≤ 0x200a) || c.toNat = 0x2028
    || c.toNat = 0x2029 || c.toNat = 0x202f || c.toNat = 0x205f
    || c.toNat = 0x3000 || c.toNat = 0xfeff

/-- Drop leading whitespace characters from a character list. -/
def trimLeadingWs : List Char → List Char
  | [] => []
  | c :: rest => if isWhitespaceChar c then trimLeadingWs rest else c :: rest

/-- Executable embedding of the String.prototype.trim call applied by the
run wrappers (src/win.ts line 4, src/unnamed/part_000 lines 22-24) to the
stdout of every credential subprocess: strip leading and trailing
whitespace. -/
def trimWs (s : String) : String :=
  ⟨(trimLeadingWs ((trimLeadingWs s.data.reverse).reverse))⟩

/-- The straight single-quote character, code point 39, the string
delimiter of single-quoted PowerShell literals. -/
def singleQuoteChar : Char := Char.ofNat 39

/-- A one-character string holding the straight single quote. -/
def singleQuoteString : String := ⟨[singleQuoteChar]⟩

/-- Whether a string contains a straight single quote.  A value
interpolated without escaping into a single-quoted PowerShell literal is
only passed through verbatim when this is false; an embedded quote
terminates the literal early and breaks or corrupts the script. -/
def hasSingleQuote (s : String) : Bool :=
  s.data.any (fun c => c = singleQuoteChar)

/-- Embedding of getMacMnemonic (src/unnamed/part_000 lines 26-30): guard
that USER is set, then query the macOS security CLI, keyed by account and
service name.  The CLI echoes the stored secret on stdout and the wrapper
run applies String.trim to it (part_000 lines 22-24); a missing entry
makes the subprocess exit non-zero, which surfaces as an error. -/
def getMacMnemonic (user : String) (store : List ((String × String) × String))
    (name : String) : Except String String :=
  if user = "" then .error "USER is not set"
  else
    match storeGet (user, name) store with
    | none => .error "security: item not found"
    | some v => .ok (trimWs v)

/-- Embedding of setMacMnemonic (src/unnamed/part_001 lines 21-34): guard
that USER is set, then write the entry via security add-generic-password
with -U, overwriting any previous entry for the same account and service. -/
def setMacMnemonic (user : String) (store : List ((String × String) × String))
    (name mnemonic : String) : Except String (List ((String × String) × String)) :=
  if user = "" then .error "USER is not set"
  else .ok (storeSet (user, name) mnemonic store)

/-- Embedding of getLinuxMnemonic (src/win.ts lines 41-43): query
secret-tool keyed by service algorand and the account name; the wrapper
run applies String.trim to the stdout of the subprocess. -/
def getLinuxMnemonic (store : List ((String × String) × String))
    (name : String) : Except String String :=
  match storeGet ("algorand", name) store with
  | none => .error "secret-tool: no such secret"
  | some v => .ok (trimWs v)

/-- Embedding of setLinuxMnemonic (src/win.ts lines 45-47): store the
secret via secret-tool under service algorand and the account name. -/
def setLinuxMnemonic (store : List ((String × String) × String))
    (name mnemonic : String) : List ((String × String) × String) :=
  storeSet ("algorand", name) mnemonic store

/-- Embedding of getWindowsMnemonic (src/win.ts lines 18-26).  The handle
name is interpolated unescaped into the single-quoted -Target literal of
the PowerShell script (line 20), so a name containing a single quote
breaks the script and the subprocess call throws.  Otherwise the script
throws Credential not found when the vault has no entry for the target,
and prints the password on success, which the wrapper run trims. -/
def getWindowsMnemonic (store : List (String × String))
    (name : String) : Except String String :=
  if hasSingleQuote name then .error "PowerShell script parse failure"
  else
    match storeGet name store with
    | none => .error "Credential not found"
    | some v => .ok (trimWs v)

/-- Embedding of setWindowsMnemonic (src/win.ts lines 28-34).  Both the
handle name and the mnemonic are interpolated unescaped into
single-quoted PowerShell literals (line 32), so a single quote in either
breaks or corrupts the script and the call fails; otherwise the
credential is stored in the vault under the target name. -/
def setWindowsMnemonic (store : List (String × String))
    (name mnemonic : String) : Except String (List (String × String)) :=
  if hasSingleQuote name || hasSingleQuote mnemonic then
    .error "PowerShell script parse failure"
  else .ok (storeSet name mnemonic store)

/-! ## Platform dispatcher (src/index.ts lines 100-121, src/unnamed/part_001 lines 65-81) -/

/-- The external stores the platform backends read and write: the macOS
keychain, the Linux secret service, and the Windows credential vault. -/
structure PlatformStores where
  macStore : List ((String × String) × String)
  linuxStore : List ((String × String) × String)
  winStore : List (String × String)
  deriving DecidableEq

/-- Embedding of getMnemonicForPlatform (src/index.ts lines 100-105):
dispatch on the platform string to the matching backend; any other
platform value fails with the unsupported-platform error. -/
def getMnemonicForPlatform (platform user : String) (st : PlatformStores)
    (name : String) : Except String String :=
  if platform = "darwin" then getMacMnemonic user st.macStore name
  else if platform = "linux" then getLinuxMnemonic st.linuxStore name
  else if platform = "win32" then getWindowsMnemonic st.winStore name
  else .error ("Unsupported platform: " ++ platform)

/-- Embedding of setMnemonicForPlatform (src/index.ts lines 107-121):
dispatch the write to the matching backend, returning the updated stores;
any other platform value fails with the unsupported-platform error. -/
def setMnemonicForPlatform (platform user : String) (st : PlatformStores)
    (name mnemonic : String) : Except String PlatformStores :=
  if platform = "darwin" then
    match setMacMnemonic user st.macStore name mnemonic with
    | .error e => .error e
    | .ok s => .ok { st with macStore := s }
  else if platform = "linux" then
    .ok { st with linuxStore := setLinuxMnemonic st.linuxStore name mnemonic }
  else if platform = "win32" then
    match setWindowsMnemonic st.winStore name mnemonic with
    | .error e => .error e
    | .ok s => .ok { st with winStore := s }
  else .error ("Unsupported platform: " ++ platform)

/-- Embedding of the two-adapter getMnemonicForPlatform variant
(src/unnamed/part_001 lines 65-69): only darwin and win32 have adapters
there; every other platform value, including linux, fails with the
unsupported-platform error. -/
def getMnemonicForPlatformMacWin (platform user : String)
    (macStore : List ((String × String) × String))
    (winStore : List (String × String)) (name : String) : Except String String :=
  if platform = "darwin" then getMacMnemonic user macStore name
  else if platform = "win32" then getWindowsMnemonic winStore name
  else .error ("Unsupported platform: " ++ platform)

/-! ## Address binding and rekeying (spec-modelled, src/README.md lines 167-174) -/

/-- Modelled from the spec: a SignerIdentity as produced by the external
generateAddressWithSigners helper: the address computed from the public
key, the capability, and the optional address on whose behalf the
capability signs after a rekey. -/
structure SignerIdentity where
  addr : List Nat
  pubkey : List Nat
  signer : List Nat → List Nat
  sendingAddress : Option (List Nat)

/-- Modelled from the spec: the external address-encoding routine, which
computes the address deterministically from the public key; modelled as
the key bytes followed by a checksum byte. -/
def addressFromPubkey (pubkey : List Nat) : List Nat :=
  pubkey ++ [pubkey.sum % 256]

/-- Modelled from the spec: generateAddressWithSigners of the external
algokit-utils library (used in src/README.md lines 167-174 and
src/unnamed/part_000 lines 263-281): bind a public key and a raw signing
capability into an identity, optionally carrying the sendingAddress the
identity signs on behalf of. -/
def generateAddressWithSigners (pubkey : List Nat) (rawSigner : List Nat → List Nat)
    (sendingAddress : Option (List Nat)) : SignerIdentity :=
  { addr := addressFromPubkey pubkey, pubkey := pubkey, signer := rawSigner,
    sendingAddress := sendingAddress }

/-- Modelled from the spec: the address an identity authorizes actions on
behalf of; the sendingAddress when supplied, otherwise its own address. -/
def effectiveSender (ident : SignerIdentity) : List Nat :=
  ident.sendingAddress.getD ident.addr

/-! ## Multisig composition (spec-modelled, src/README.md lines 139-159) -/

/-- Modelled from the spec: MultisigMetadata of the external library:
version, threshold, and the ordered member addresses. -/
structure MultisigMetadata where
  version : Nat
  threshold : Nat
  addrs : List (List Nat)

/-- Modelled from the spec: a MultisigAccount (src/unnamed/part_000 lines
235-255) holds the metadata and the member identities present to the
composer; peers who hold their own keys elsewhere are simply absent. -/
structure MultisigAccount where
  msigData : MultisigMetadata
  presentSigners : List SignerIdentity

/-- Modelled from the spec: composing a multisig account validates the
threshold bounds and that every present identity is one of the configured
member addresses. -/
def MultisigAccount.compose (md : MultisigMetadata) (present : List SignerIdentity) :
    Except String MultisigAccount :=
  if md.threshold < 1 ∨ md.addrs.length < md.threshold then .error "InvalidThreshold"
  else if present.all (fun ident => md.addrs.contains ident.addr) then .ok ⟨md, present⟩
  else .error "UnknownMember"

/-- Modelled from the spec: composite signing iterates the present member
identities, collects each signature share paired with the member address,
and fails with the insufficient-signatures error when fewer than threshold
identities are present. -/
def MultisigAccount.sign (acct : MultisigAccount) (data : List Nat) :
    Except String (List (List Nat × List Nat)) :=
  if acct.presentSigners.length < acct.msigData.threshold then
    .error "InsufficientSignatures"
  else .ok (acct.presentSigners.map (fun ident => (ident.addr, ident.signer data)))

/-! ## Concrete multisig scenario (src/README.md lines 139-159) -/

/-- Seed of the absent first member of the multisig scenario. -/
def msigSeedA : List Nat := List.replicate 32 1

/-- Seed of the present second member of the multisig scenario. -/
def msigSeedB : List Nat := List.replicate 32 2

/-- The one member identity present to the composer in the scenario. -/
def msigMemberB : SignerIdentity :=
  generateAddressWithSigners (nobleEd25519Pubkey msigSeedB) (nobleSign msigSeedB) none

/-- The two configured member addresses of the scenario, in order. -/
def msigAddrs : List (List Nat) :=
  [addressFromPubkey (nobleEd25519Pubkey msigSeedA), msigMemberB.addr]

/-- Metadata with threshold 1 over the two configured members. -/
def msigMeta1 : MultisigMetadata := { version := 1, threshold := 1, addrs := msigAddrs }

/-- Metadata with threshold 2 over the two configured members. -/
def msigMeta2 : MultisigMetadata := { version := 1, threshold := 2, addrs := msigAddrs }

/-- A KMS transport whose call succeeds but whose response carries no
signature payload. -/
def kmsRespNone : SignRequest → Except String SignResponse :=
  fun _ => .ok ⟨none⟩

/-! ## Helper lemmas -/

/-- The codec round trip: decoding the rendered mnemonic recovers the seed. -/
theorem seedFromMnemonic_mnemonicFromSeed (s : List Nat) :
    seedFromMnemonic (mnemonicFromSeed s) = s := by
  simp [seedFromMnemonic, mnemonicFromSeed]

/-- A rendered mnemonic is never empty, its checksum byte is always there. -/
theorem mnemonicFromSeed_ne_nil (s : List Nat) : mnemonicFromSeed s ≠ [] := by
  simp [mnemonicFromSeed]

/-- Overwriting one entry of a list with a byte different from the one
stored there changes the list. -/
theorem set_ne_of_ne_getElem (l : List Nat) (i b : Nat) (h : i < l.length)
    (hb : b ≠ l[i]) : l.set i b ≠ l := by
  intro heq
  apply hb
  have h2 : (l.set i b)[i]? = l[i]? := by rw [heq]
  rw [List.getElem?_set_self, List.getElem?_eq_getElem h] at h2
  · exact Option.some_injective _ h2
  · exact h

/-- Appending the same list on the left preserves distinctness. -/
theorem append_left_cancel_ne (a b c : List Nat) (h : b ≠ c) : a ++ b ≠ a ++ c :=
  fun heq => h ((List.append_right_inj a).mp heq)

/-- The modelled address encoding is injective on public keys. -/
theorem addressFromPubkey_ne (a b : List Nat) (h2 : a ≠ b) :
    addressFromPubkey a ≠ addressFromPubkey b := by
  intro h
  apply h2
  have h3 := congrArg List.dropLast h
  simpa [addressFromPubkey, List.dropLast_concat] using h3

/-! ## Claim theorems -/

/-- C1, counterexample.  At a concrete store holding a valid mnemonic and a
sign step that raises after seed derivation, rawEd25519Signer propagates
the error while the seed buffer still holds the derived nonzero seed: the
claim that every exit path leaves the buffer zeroized is false on the code,
which runs seed.fill(0) only after the sign step succeeds. -/
theorem seed_zeroization_counterexample :
    (rawEd25519Signer (setMnemonicMn [] mnemonicName (mnemonicFromSeed (List.replicate 32 5)))
      failingSignStep [1, 2, 3]).2 = some (List.replicate 32 5)
    ∧ some (List.replicate 32 5) ≠ some (List.replicate 32 0) := by
  constructor
  · rfl
  · decide

/-- C1, amended.  For every store whose lookup yields a mnemonic, the
ephemeral signers (rawEd25519Signer of src/index.ts and macSigner of
src/mac.ts) zero the derived seed buffer before returning on the success
path of the inner sign step; when the inner sign step raises after seed
derivation the error propagates with the buffer still holding the seed. -/
theorem seed_zeroization_paths (store : List (String × List Nat)) (mn data : List Nat)
    (signStep : List Nat → List Nat → Except String (List Nat))
    (hget : getMnemonicMn store mnemonicName = .ok mn) :
    (∀ sig, signStep (seedFromMnemonic mn) data = .ok sig →
      rawEd25519Signer store signStep data
        = (.ok sig, some (List.replicate (seedFromMnemonic mn).length 0)))
    ∧ (∀ e, signStep (seedFromMnemonic mn) data = .error e →
      rawEd25519Signer store signStep data = (.error e, some (seedFromMnemonic mn)))
    ∧ (∀ sig, signStep (seedFromMnemonic mn) data = .ok sig →
      macSigner (.ok mn) signStep data
        = (.ok sig, some (List.replicate (seedFromMnemonic mn).length 0)))
    ∧ (∀ e, signStep (seedFromMnemonic mn) data = .error e →
      macSigner (.ok mn) signStep data = (.error e, some (seedFromMnemonic mn))) := by
  refine ⟨?_, ?_, ?_, ?_⟩
  · intro sig hsig
    simp [rawEd25519Signer, hget, hsig]
  · intro e he
    simp [rawEd25519Signer, hget, he]
  · intro sig hsig
    simp [macSigner, hsig]
  · intro e he
    simp [macSigner, he]

/-- Witness for the amended C1 theorem at a concrete store, mnemonic,
message and the succeeding noble sign step. -/
theorem seed_zeroization_paths_witness :
    rawEd25519Signer (setMnemonicMn [] mnemonicName (mnemonicFromSeed (List.replicate 32 7)))
      nobleSignStep [1, 2, 3]
      = (.ok (nobleSign (List.replicate 32 7) [1, 2, 3]),
          some (List.replicate (seedFromMnemonic (mnemonicFromSeed (List.replicate 32 7))).length 0)) :=
  (seed_zeroization_paths
    (setMnemonicMn [] mnemonicName (mnemonicFromSeed (List.replicate 32 7)))
    (mnemonicFromSeed (List.replicate 32 7)) [1, 2, 3] nobleSignStep rfl).1
    (nobleSign (List.replicate 32 7) [1, 2, 3]) rfl

/-- C2.  Evaluating macWinSigner (src/win.ts lines 77-87,
src/unnamed/part_001 lines 83-93) at a concrete retrieved mnemonic: the
console.debug call puts the retrieved mnemonic itself into the log, and
the log differs between two different stored mnemonics, so the logged
output is not independent of the secret.  The claim is right about the
intended behavior and the code contradicts it. -/
theorem macWinSigner_logs_mnemonic :
    (macWinSigner (.ok (mnemonicFromSeed (List.replicate 32 3))) nobleSignStep [1, 2, 3]).2.1
      = [mnemonicFromSeed (List.replicate 32 3)]
    ∧ (macWinSigner (.ok (mnemonicFromSeed (List.replicate 32 3))) nobleSignStep [1, 2, 3]).2.1
      ≠ (macWinSigner (.ok (mnemonicFromSeed (List.replicate 32 4))) nobleSignStep [1, 2, 3]).2.1 := by
  constructor
  · rfl
  · decide

/-- C3.  An envelope whose first 12 bytes differ from the fixed Ed25519
SPKI header is rejected with the malformed-public-key error, and a
well-formed envelope, the header followed by the 32 raw key bytes, yields
exactly those trailing 32 bytes. -/
theorem kms_public_key_fetch (spki pk : List Nat)
    (hbad : spki.take 12 ≠ ed25519SpkiPrefix) (hlen : pk.length = 32) :
    fetchPublicKey (some spki) = .error "Unexpected public key format"
    ∧ fetchPublicKey (some ( ed25519SpkiPrefix ++ pk)) = .ok pk
    ∧ pk.length = 32 := by
  refine ⟨?_, ?_, hlen⟩
  · simp [fetchPublicKey, hbad]
  · rfl

/-- Witness for the C3 theorem at a concrete bad envelope and a concrete
32-byte public key. -/
theorem kms_public_key_fetch_witness :
    fetchPublicKey (some ( ed25519SpkiPrefix ++ List.replicate 32 9)) = .ok (List.replicate 32 9) :=
  (kms_public_key_fetch [0] (List.replicate 32 9) (by decide) (by decide)).2.1

/-- C4.  For every seed and non-empty message, the signature produced by
the modelled signer verifies against the derived public key, and changing
any single byte of the signature or of the message makes verification
return false (it never raises, being a total boolean function). -/
theorem sign_then_verify_and_flip (s msg : List Nat) (hm : msg ≠ []) :
    nobleEd25519Verifier (nobleSign s msg) msg (nobleEd25519Pubkey s) = true
    ∧ (∀ i b, ∀ h : i < (nobleSign s msg).length, b ≠ (nobleSign s msg)[i] →
        nobleEd25519Verifier ((nobleSign s msg).set i b) msg (nobleEd25519Pubkey s) = false)
    ∧ (∀ j c, ∀ h : j < msg.length, c ≠ msg[j] →
        nobleEd25519Verifier (nobleSign s msg) (msg.set j c) (nobleEd25519Pubkey s) = false) := by
  refine ⟨?_, ?_, ?_⟩
  · simp [nobleEd25519Verifier, nobleSign]
  · intro i b h hb
    apply beq_eq_false_iff_ne.mpr
    exact set_ne_of_ne_getElem _ i b h hb
  · intro j c h hc
    apply beq_eq_false_iff_ne.mpr
    show nobleEd25519Pubkey s ++ msg ≠ nobleEd25519Pubkey s ++ msg.set j c
    exact append_left_cancel_ne _ _ _ (set_ne_of_ne_getElem _ j c h hc).symm

/-- Witness for the C4 theorem at a concrete seed and message. -/
theorem sign_then_verify_and_flip_witness :
    nobleEd25519Verifier (nobleSign [1, 2] [3]) [3] (nobleEd25519Pubkey [1, 2]) = true :=
  (sign_then_verify_and_flip [1, 2] [3] (by decide)).1

/-- C5.  The dispatcher of src/index.ts routes darwin, linux and win32 to
the matching backend for both get and set, and any other platform value
fails with the unsupported-platform error rather than a default backend;
the two-adapter variant of src/unnamed/part_001 routes darwin and win32
and fails the same way for everything else, including linux. -/
theorem platform_dispatch_selects_backend (platform user name m : String)
    (st : PlatformStores)
    (h : platform ≠ "darwin" ∧ platform ≠ "linux" ∧ platform ≠ "win32") :
    getMnemonicForPlatform "darwin" user st name = getMacMnemonic user st.macStore name
    ∧ getMnemonicForPlatform "linux" user st name = getLinuxMnemonic st.linuxStore name
    ∧ getMnemonicForPlatform "win32" user st name = getWindowsMnemonic st.winStore name
    ∧ getMnemonicForPlatform platform user st name
        = .error ("Unsupported platform: " ++ platform)
    ∧ (∀ s2, setMacMnemonic user st.macStore name m = .ok s2 →
        setMnemonicForPlatform "darwin" user st name m = .ok { st with macStore := s2 })
    ∧ (∀ e, setMacMnemonic user st.macStore name m = .error e →
        setMnemonicForPlatform "darwin" user st name m = .error e)
    ∧ setMnemonicForPlatform "linux" user st name m
        = .ok { st with linuxStore := setLinuxMnemonic st.linuxStore name m }
    ∧ (∀ s2, setWindowsMnemonic st.winStore name m = .ok s2 →
        setMnemonicForPlatform "win32" user st name m = .ok { st with winStore := s2 })
    ∧ (∀ e, setWindowsMnemonic st.winStore name m = .error e →
        setMnemonicForPlatform "win32" user st name m = .error e)
    ∧ setMnemonicForPlatform platform user st name m
        = .error ("Unsupported platform: " ++ platform)
    ∧ getMnemonicForPlatformMacWin "darwin" user st.macStore st.winStore name
        = getMacMnemonic user st.macStore name
    ∧ getMnemonicForPlatformMacWin "win32" user st.macStore st.winStore name
        = getWindowsMnemonic st.winStore name
    ∧ getMnemonicForPlatformMacWin "linux" user st.macStore st.winStore name
        = .error ("Unsupported platform: " ++ "linux") := by
  refine ⟨rfl, rfl, rfl, ?_, ?_, ?_, rfl, ?_, ?_, ?_, rfl, rfl, rfl⟩
  · simp [getMnemonicForPlatform, h.1, h.2.1, h.2.2]
  · intro s2 hs2
    simp [setMnemonicForPlatform, hs2]
  · intro e he
    simp [setMnemonicForPlatform, he]
  · intro s2 hs2
    simp [setMnemonicForPlatform, hs2]
  · intro e he
    simp [setMnemonicForPlatform, he]
  · simp [setMnemonicForPlatform, h.1, h.2.1, h.2.2]

/-- Witness for the C5 theorem at a concrete unmodeled platform value. -/
theorem platform_dispatch_selects_backend_witness :
    getMnemonicForPlatform "freebsd" "u" ⟨[], [], []⟩ "n"
      = .error ("Unsupported platform: " ++ "freebsd") :=
  (platform_dispatch_selects_backend "freebsd" "u" "n" "x" ⟨[], [], []⟩
    (by refine ⟨?_, ?_, ?_⟩ <;> decide)).2.2.2.1

/-- C6.  The KMS signer forwards the message under the configured key
identifier with message type RAW and signing algorithm ED25519_SHA_512;
it fails with the missing-remote-signature error exactly in the response
case where the call succeeded but carried no signature payload, returns
the payload unchanged when one is present, and propagates a transport
error as such. -/
theorem kms_signer_forwards_and_errors
    (kmsSend : SignRequest → Except String SignResponse) (keyId : String) (data : List Nat) :
    (mkSignRequest keyId data).keyId = keyId
    ∧ (mkSignRequest keyId data).message = data
    ∧ (mkSignRequest keyId data).messageType = "RAW"
    ∧ (mkSignRequest keyId data).signingAlgorithm = "ED25519_SHA_512"
    ∧ (kmsSend (mkSignRequest keyId data) = .ok ⟨none⟩ →
        originalSigner kmsSend keyId data = .error "No signature returned from KMS")
    ∧ (∀ sig, kmsSend (mkSignRequest keyId data) = .ok ⟨some sig⟩ →
        originalSigner kmsSend keyId data = .ok sig)
    ∧ (∀ e, kmsSend (mkSignRequest keyId data) = .error e →
        originalSigner kmsSend keyId data = .error e) := by
  refine ⟨rfl, rfl, rfl, rfl, ?_, ?_, ?_⟩
  · intro hnone
    simp [originalSigner, hnone]
  · intro sig hsig
    simp [originalSigner, hsig]
  · intro e he
    simp [originalSigner, he]

/-- Witness for the C6 theorem at a transport whose acknowledged response
carries no signature payload. -/
theorem kms_signer_forwards_and_errors_witness :
    originalSigner kmsRespNone "key" [1, 2] = .error "No signature returned from KMS" :=
  (kms_signer_forwards_and_errors kmsRespNone "key" [1, 2]).2.2.2.2.1 rfl

/-- C7, counterexample.  The round trip fails for some mnemonic strings
and handles: the keyring backend of src/index.ts treats the stored empty
string as missing (the falsy guard) and reports an error instead of
returning it; the Linux backend returns the stored value with its leading
and trailing whitespace stripped by the trim of the subprocess wrapper;
and the Windows backend interpolates the mnemonic and the handle name
unescaped into single-quoted PowerShell literals, so a single quote in
either makes set, respectively get, throw instead of completing the
round trip. -/
theorem backend_roundtrip_counterexample :
    getMnemonic (setMnemonic [] mnemonicName "") mnemonicName
      = .error ("No mnemonic found in keyring for " ++ mnemonicName)
    ∧ getLinuxMnemonic (setLinuxMnemonic [] "h" " x") "h" = .ok "x"
    ∧ setWindowsMnemonic [] "h" ("don" ++ singleQuoteString ++ "t")
      = .error "PowerShell script parse failure"
    ∧ getWindowsMnemonic [] ("h" ++ singleQuoteString)
      = .error "PowerShell script parse failure" := by
  refine ⟨?_, ?_, ?_, ?_⟩ <;> rfl

/-- C7, amended.  For every supported backend, every handle, and every
mnemonic such that the mnemonic is non-empty and has no leading or
trailing whitespace in the JavaScript trim sense, the macOS user account
is non-empty, and, for the Windows backend, neither the handle nor the
mnemonic contains a single-quote character, storing the mnemonic and
reading it back returns it unchanged. -/
theorem backend_roundtrip (user name m : String)
    (hm : m ≠ "") (ht : trimWs m = m) (hu : user ≠ "")
    (hqn : hasSingleQuote name = false) (hqm : hasSingleQuote m = false)
    (ks : List (String × String)) (ms : List ((String × String) × String))
    (ls : List ((String × String) × String)) (ws : List (String × String)) :
    getMnemonic (setMnemonic ks name m) name = .ok m
    ∧ (∃ ms2, setMacMnemonic user ms name m = .ok ms2
        ∧ getMacMnemonic user ms2 name = .ok m)
    ∧ getLinuxMnemonic (setLinuxMnemonic ls name m) name = .ok m
    ∧ (∃ ws2, setWindowsMnemonic ws name m = .ok ws2
        ∧ getWindowsMnemonic ws2 name = .ok m) := by
  refine ⟨?_, ?_, ?_, ?_⟩
  · simp [getMnemonic, setMnemonic, storeSet, storeGet, hm]
  · refine ⟨storeSet (user, name) m ms, ?_, ?_⟩
    · simp [setMacMnemonic, hu]
    · simp [getMacMnemonic, storeSet, storeGet, hu, ht]
  · simp [getLinuxMnemonic, setLinuxMnemonic, storeSet, storeGet, ht]
  · refine ⟨storeSet name m ws, ?_, ?_⟩
    · simp [setWindowsMnemonic, hqn, hqm]
    · simp [getWindowsMnemonic, storeSet, storeGet, hqn, ht]

/-- Witness for the amended C7 theorem at a concrete user, handle and
mnemonic. -/
theorem backend_roundtrip_witness :
    getMnemonic (setMnemonic [] "n" "abc") "n" = .ok "abc" :=
  (backend_roundtrip "joe" "n" "abc" (by decide) (by decide) (by decide)
    (by decide) (by decide) [] [] [] []).1

/-- C8.  With threshold 1 over the two configured member addresses and a
single present member identity, composition validates and composite
signing succeeds with that member share; with threshold 2 and the same
single present identity, composition still validates but composite signing
fails with the insufficient-signatures error. -/
theorem multisig_threshold_behavior :
    MultisigAccount.compose msigMeta1 [msigMemberB] = .ok ⟨msigMeta1, [msigMemberB]⟩
    ∧ MultisigAccount.sign ⟨msigMeta1, [msigMemberB]⟩ [9, 9]
        = .ok [(msigMemberB.addr, nobleSign msigSeedB [9, 9])]
    ∧ MultisigAccount.compose msigMeta2 [msigMemberB] = .ok ⟨msigMeta2, [msigMemberB]⟩
    ∧ MultisigAccount.sign ⟨msigMeta2, [msigMemberB]⟩ [9, 9]
        = .error "InsufficientSignatures" := by
  refine ⟨?_, ?_, ?_, ?_⟩ <;> rfl

/-- C9.  An identity bound with a sendingAddress equal to the original
address A signs on behalf of A, its signatures verify against its own
public key, its own address differs from A, and binding any other identity
to the same sendingAddress still designates exactly the unchanged A. -/
theorem rekey_binding_semantics (s1 s2 msg : List Nat) (hne : s1 ≠ s2) :
    effectiveSender (generateAddressWithSigners (nobleEd25519Pubkey s2) (nobleSign s2)
        (some (addressFromPubkey (nobleEd25519Pubkey s1))))
      = addressFromPubkey (nobleEd25519Pubkey s1)
    ∧ (generateAddressWithSigners (nobleEd25519Pubkey s2) (nobleSign s2)
        (some (addressFromPubkey (nobleEd25519Pubkey s1)))).addr
      ≠ addressFromPubkey (nobleEd25519Pubkey s1)
    ∧ nobleEd25519Verifier
        ((generateAddressWithSigners (nobleEd25519Pubkey s2) (nobleSign s2)
          (some (addressFromPubkey (nobleEd25519Pubkey s1)))).signer msg) msg
        (nobleEd25519Pubkey s2) = true
    ∧ (∀ s3 : List Nat,
        effectiveSender (generateAddressWithSigners (nobleEd25519Pubkey s3) (nobleSign s3)
          (some (addressFromPubkey (nobleEd25519Pubkey s1))))
        = addressFromPubkey (nobleEd25519Pubkey s1)) := by
  refine ⟨rfl, ?_, ?_, ?_⟩
  · exact addressFromPubkey_ne _ _ (fun h => hne h.symm)
  · simp [nobleEd25519Verifier, generateAddressWithSigners, nobleSign]
  · intro s3
    rfl

/-- Witness for the C9 theorem at two concrete distinct seeds. -/
theorem rekey_binding_semantics_witness :
    effectiveSender (generateAddressWithSigners (nobleEd25519Pubkey [2]) (nobleSign [2])
        (some (addressFromPubkey (nobleEd25519Pubkey [1]))))
      = addressFromPubkey (nobleEd25519Pubkey [1]) :=
  (rekey_binding_semantics [1] [2] [5] (by decide)).1

/-- C10.  Storing the mnemonic rendered from a 32-byte seed in the keyring
backend and signing through the ephemeral signer, which re-derives the
seed from the stored mnemonic, yields exactly the signature of the
original seed, and that signature verifies against the public key derived
directly from the seed; the codec round trip preserves the seed. -/
theorem mnemonic_roundtrip_preserves_keypair (s msg : List Nat) (hs : s.length = 32) :
    (rawEd25519Signer (setMnemonicMn [] mnemonicName (mnemonicFromSeed s))
        nobleSignStep msg).1
      = .ok (nobleSign s msg)
    ∧ nobleEd25519Verifier (nobleSign s msg) msg (nobleEd25519Pubkey s) = true
    ∧ seedFromMnemonic (mnemonicFromSeed s) = s := by
  refine ⟨?_, ?_, seedFromMnemonic_mnemonicFromSeed s⟩
  · simp [rawEd25519Signer, getMnemonicMn, setMnemonicMn, storeSet, storeGet,
      mnemonicFromSeed_ne_nil s, seedFromMnemonic_mnemonicFromSeed s, nobleSignStep]
  · simp [nobleEd25519Verifier, nobleSign]

/-- Witness for the C10 theorem at a concrete 32-byte seed and message. -/
theorem mnemonic_roundtrip_preserves_keypair_witness :
    (rawEd25519Signer (setMnemonicMn [] mnemonicName (mnemonicFromSeed (List.replicate 32 7)))
        nobleSignStep [1, 2, 3]).1
      = .ok (nobleSign (List.replicate 32 7) [1, 2, 3]) :=
  (mnemonic_roundtrip_preserves_keypair (List.replicate 32 7) [1, 2, 3] (by decide)).1

end AkSigning
